import Mathlib

/-!
Shallow embedding of the test-orchestration core of the Ecommerce
Playwright/Cucumber repository, together with theorems settling the
frozen claims about it.

The embedded functions mirror, statement by statement, the TypeScript
sources:
  * `src/helpers/products.ts` (browser-setup section):
    `initializeBrowser`, `cleanupBrowser` over the module-level
    `browser` / `context` / `page` singletons;
  * `src/utils/api-helper.ts`:
    `interceptApiRequest`'s `waitForResponse` predicate and
    `validateProductListResponse`;
  * `src/utils/actions.ts`: `getText`, `handleDialog`;
  * `src/helpers/cart.ts`: `addProductToCart`'s dialog promise,
    `verifyAddToCartSuccess`, `verifyCartItems`;
  * `src/helpers/auth.ts`: `login`.

Asynchronous effects are made explicit: the outcome of an awaited
Playwright call (a dialog event arriving or not, a close call throwing
or not) is an explicit argument, and a function's observable effects
(which handles were closed, how often a dialog was accepted) are part
of its return value.  JavaScript exceptions are `Except`; a JS
`try`/`catch` that rewraps is a `match` that rebuilds the error string
exactly as the source does.
-/

/-! ### String containment (JS `String.prototype.includes`) -/

/-- `startsWithL pat l` is true when `pat` is an initial segment of `l`
(character-by-character comparison, as JS substring search does at one
position). -/
def startsWithL : List Char → List Char → Bool
  | [], _ => true
  | _ :: _, [] => false
  | p :: ps, c :: cs => p == c && startsWithL ps cs

/-- `hasSubL pat l` is true when `pat` occurs contiguously inside `l`:
the embedding of JS `l.includes(pat)` on the underlying character
lists. -/
def hasSubL (pat : List Char) : List Char → Bool
  | [] => pat.isEmpty
  | c :: cs => startsWithL pat (c :: cs) || hasSubL pat cs

/-- JS `s.includes(pat)`: substring containment on strings. -/
def strContainsSub (s pat : String) : Bool :=
  hasSubL pat.data s.data

/-- JS `s.toLowerCase()` on the ASCII messages this application
produces: lower-casing character by character. -/
def strToLower (s : String) : String :=
  ⟨s.data.map Char.toLower⟩

/-- JS `s.trim()`: strip leading and trailing whitespace. -/
def strTrim (s : String) : String :=
  ⟨((s.data.dropWhile Char.isWhitespace).reverse.dropWhile Char.isWhitespace).reverse⟩

theorem startsWithL_append (pat l t : List Char)
    (h : startsWithL pat l = true) : startsWithL pat (l ++ t) = true := by
  induction pat generalizing l with
  | nil => simp [startsWithL]
  | cons p ps ih =>
    cases l with
    | nil => simp [startsWithL] at h
    | cons c cs =>
      simp only [startsWithL, Bool.and_eq_true] at h ⊢
      exact ⟨h.1, ih cs h.2⟩

theorem hasSubL_append_left (pat l t : List Char)
    (h : hasSubL pat l = true) : hasSubL pat (l ++ t) = true := by
  induction l with
  | nil =>
    simp only [hasSubL, List.isEmpty_iff] at h
    subst h
    cases t with
    | nil => simp [hasSubL]
    | cons c cs => simp [hasSubL, startsWithL]
  | cons c cs ih =>
    simp only [hasSubL, Bool.or_eq_true] at h
    rcases h with h | h
    · simp only [List.cons_append, hasSubL, Bool.or_eq_true]
      exact Or.inl (startsWithL_append pat (c :: cs) t h)
    · simp only [List.cons_append, hasSubL, Bool.or_eq_true]
      exact Or.inr (ih h)

theorem hasSubL_append_right (pat l t : List Char)
    (h : hasSubL pat t = true) : hasSubL pat (l ++ t) = true := by
  induction l with
  | nil => simpa using h
  | cons c cs ih =>
    simp only [List.cons_append, hasSubL, Bool.or_eq_true]
    exact Or.inr ih

theorem strContainsSub_append_left (s t pat : String)
    (h : strContainsSub s pat = true) : strContainsSub (s ++ t) pat = true := by
  unfold strContainsSub at h ⊢
  rw [String.data_append]
  exact hasSubL_append_left pat.data s.data t.data h

theorem strContainsSub_append_right (s t pat : String)
    (h : strContainsSub t pat = true) : strContainsSub (s ++ t) pat = true := by
  unfold strContainsSub at h ⊢
  rw [String.data_append]
  exact hasSubL_append_right pat.data s.data t.data h

/-! ### Resource Lifecycle Manager

`src/helpers/products.ts` (browser-setup section) keeps three
module-level singletons

    let browser: Browser | null = null;
    let context: BrowserContext | null = null;
    let page: Page | null = null;

`BrowserState` is that module state.  Handles are names (`Nat`);
`nextHandle` is the allocator for fresh handles, so "a new resource was
created" is observable as a strictly grown counter. -/

structure BrowserState where
  browser : Option Nat
  context : Option Nat
  page : Option Nat
  nextHandle : Nat
  deriving Repr, DecidableEq

/-- `initializeBrowser` from `src/helpers/products.ts`: each of the
three `if (!x) { x = await create(); }` blocks creates the handle only
when absent, and the current `page` handle is returned.  Handle
creation draws from `nextHandle`. -/
def initializeBrowser (s : BrowserState) : BrowserState × Nat :=
  let s1 :=
    match s.browser with
    | some _ => s
    | none => { s with browser := some s.nextHandle, nextHandle := s.nextHandle + 1 }
  let s2 :=
    match s1.context with
    | some _ => s1
    | none => { s1 with context := some s1.nextHandle, nextHandle := s1.nextHandle + 1 }
  match s2.page with
  | some p => (s2, p)
  | none => ({ s2 with page := some s2.nextHandle, nextHandle := s2.nextHandle + 1 }, s2.nextHandle)

/-- One teardown call performed by `cleanupBrowser` (an awaited
`page.close()`, `context.close()` or `browser.close()`), recorded with
the handle it was invoked on. -/
inductive TeardownAction where
  | closePage (h : Nat)
  | closeContext (h : Nat)
  | closeBrowser (h : Nat)
  deriving Repr, DecidableEq

/-- The `browser.close()` leg of `cleanupBrowser`'s try block.
`fails h` says whether the awaited close call on handle `h` throws.
A throw aborts the try block (`Except.error`), carrying the module
state and the teardown calls attempted so far; note the `x = null`
assignment sits after the `await x.close()`, so a throwing close leaves
the handle set. -/
def cleanupTryEng (fails : Nat → Bool) (s : BrowserState) (log : List TeardownAction) :
    Except (BrowserState × List TeardownAction) (BrowserState × List TeardownAction) :=
  match s.browser with
  | some b =>
    if fails b then .error (s, log ++ [.closeBrowser b])
    else .ok ({ s with browser := none }, log ++ [.closeBrowser b])
  | none => .ok (s, log)

/-- The `context.close()` leg of `cleanupBrowser`'s try block, followed
by the browser leg. -/
def cleanupTryCtx (fails : Nat → Bool) (s : BrowserState) (log : List TeardownAction) :
    Except (BrowserState × List TeardownAction) (BrowserState × List TeardownAction) :=
  match s.context with
  | some c =>
    if fails c then .error (s, log ++ [.closeContext c])
    else cleanupTryEng fails { s with context := none } (log ++ [.closeContext c])
  | none => cleanupTryEng fails s log

/-- The whole try block of `cleanupBrowser`: `page.close()`, then
`context.close()`, then `browser.close()`, each guarded by
`if (x)`; the first throwing close aborts the remaining statements. -/
def cleanupTry (fails : Nat → Bool) (s : BrowserState) :
    Except (BrowserState × List TeardownAction) (BrowserState × List TeardownAction) :=
  match s.page with
  | some p =>
    if fails p then .error (s, [.closePage p])
    else cleanupTryCtx fails { s with page := none } [.closePage p]
  | none => cleanupTryCtx fails s []

/-- `cleanupBrowser` from `src/helpers/products.ts`: the try block with
its catch, which logs the error and deliberately does not rethrow
("Don't throw - cleanup should be best effort"), so the caller always
receives a normal return. -/
def cleanupBrowser (fails : Nat → Bool) (s : BrowserState) : BrowserState × List TeardownAction :=
  match cleanupTry fails s with
  | .ok r => r
  | .error r => r

/-- The environment in which no awaited close call throws. -/
def noFail : Nat → Bool := fun _ => false

/-- The teardown calls `cleanupBrowser` issues from state `s` when
nothing throws: the present handles, in page, context, browser
order. -/
def teardownOrder (s : BrowserState) : List TeardownAction :=
  s.page.toList.map .closePage ++ s.context.toList.map .closeContext
    ++ s.browser.toList.map .closeBrowser

/-! ### JSON values and `validateProductListResponse`

`src/utils/api-helper.ts` validates an arbitrary decoded JSON body.
`Json` is that value space; `jobj` keeps its fields in the order
`Object.values` enumerates them (insertion order for the string keys
this endpoint uses). -/

inductive Json where
  | jnull
  | jbool (b : Bool)
  | jnum (n : Int)
  | jstr (s : String)
  | jarr (elems : List Json)
  | jobj (fields : List (String × Json))

/-- JS `typeof` on a decoded JSON value (`typeof null` is `"object"`,
and so is `typeof` of an array or object). -/
def jsTypeof : Json → String
  | .jnull => "object"
  | .jbool _ => "boolean"
  | .jnum _ => "number"
  | .jstr _ => "string"
  | .jarr _ => "object"
  | .jobj _ => "object"

/-- `j === null`. -/
def Json.isNull : Json → Bool
  | .jnull => true
  | _ => false

/-- `Array.isArray`, returning the elements when it holds: used to
embed `Object.values(responseObj).find(Array.isArray)`. -/
def asArray : Json → Option (List Json)
  | .jarr elems => some elems
  | _ => none

/-- Structured failure of `validateProductListResponse`, carrying the
data its message strings interpolate. -/
inductive ValidationError where
  | noArrayProperty (keys : List String)
  | notArrayOrObject (ty : String)
  | countBelowMin (found required : Nat)
  | invalidProductObjects
  deriving Repr, DecidableEq

/-- The message of the inner throw of `validateProductListResponse`
when it fails.  For `countBelowMin` the text is the failure output of
the `expect(productCount).toBeGreaterThanOrEqual(minProducts)` matcher
(external library), which names the received and expected values; the
other cases are the literal `throw new Error(...)` strings of the
source. -/
def innerMessage : ValidationError → String
  | .noArrayProperty keys =>
    "Response is not an array and no array property found. Received type: object, Keys: "
      ++ String.intercalate ", " keys
  | .notArrayOrObject ty => "Response is not an array or object. Received type: " ++ ty
  | .countBelowMin found required =>
    "expected " ++ toString found ++ " to be greater than or equal to " ++ toString required
  | .invalidProductObjects => "Products in response are not valid objects"

/-- The message of the error `validateProductListResponse` rethrows
from its catch block:
`Product list validation failed: ${errorMessage}. Expected at least
${minProducts} products in the response.` -/
def validationMessage (e : ValidationError) (minProducts : Nat) : String :=
  "Product list validation failed: " ++ innerMessage e
    ++ ". Expected at least " ++ toString minProducts ++ " products in the response."

/-- The product-collection extraction of `validateProductListResponse`:
an array body is used directly; an object body contributes its first
array-valued field in `Object.values` order; anything else (including
`null`, whose `typeof` is `"object"` but which fails the `!== null`
guard) is a validation failure. -/
def extractProducts : Json → Except ValidationError (List Json)
  | .jarr elems => .ok elems
  | .jobj fields =>
    match (fields.map Prod.snd).findSome? asArray with
    | some elems => .ok elems
    | none => .error (.noArrayProperty (fields.map Prod.fst))
  | j => .error (.notArrayOrObject (jsTypeof j))

/-- `validateProductListResponse` from `src/utils/api-helper.ts`:
extract the product collection, require
`productCount >= minProducts`, and when the collection is non-empty
require its first element to satisfy
`typeof firstProduct === 'object' && firstProduct !== null`. -/
def validateProductListResponse (responseData : Json) (minProducts : Nat) :
    Except ValidationError Unit :=
  match extractProducts responseData with
  | .error e => .error e
  | .ok products =>
    let productCount := products.length
    if productCount < minProducts then .error (.countBelowMin productCount minProducts)
    else
      match products.head? with
      | some firstProduct =>
        if jsTypeof firstProduct == "object" && !(firstProduct.isNull) then .ok ()
        else .error .invalidProductObjects
      | none => .ok ()

/-! ### Network Interception Gate

`interceptApiRequest` in `src/utils/api-helper.ts` passes a predicate
to `page.waitForResponse`, which resolves with the first response
satisfying it.  A response is observed as its URL and status. -/

structure NetResponse where
  url : String
  status : Nat
  deriving Repr, DecidableEq

/-- The predicate `interceptApiRequest` hands to `waitForResponse`:
`response.url().includes(endpoint) && response.status() === expectedStatus`. -/
def responseMatches (endpoint : String) (expectedStatus : Nat) (r : NetResponse) : Bool :=
  let urlMatches := strContainsSub r.url endpoint
  let statusMatches := r.status == expectedStatus
  urlMatches && statusMatches

/-- `page.waitForResponse` with the predicate above over the stream of
responses the page emits, in arrival order: it resolves once, with the
first matching response. -/
def waitForResponse (endpoint : String) (expectedStatus : Nat)
    (responses : List NetResponse) : Option NetResponse :=
  responses.find? (responseMatches endpoint expectedStatus)

/-! ### Action Wrapper: `getText`

`getText` in `src/utils/actions.ts` resolves the element's
`textContent()` (possibly `null`) and then runs
`if (!text) { throw new Error('Element text is empty or null'); }
return text.trim();`.  In JS, `!text` holds for `null` and for the
empty string only; the try/catch rewraps the throw with the element
name. -/

def getTextErr (elementName : String) : String :=
  "Failed to get text from " ++ elementName
    ++ ": Element text is empty or null. Please verify the element is visible and contains text."

def getText (textContent : Option String) (elementName : String) : Except String String :=
  match textContent with
  | none => .error (getTextErr elementName)
  | some text =>
    if text == "" then .error (getTextErr elementName)
    else .ok (strTrim text)

/-! ### Event Synchronizer: dialogs

A dialog event is observed as its message string.  `Option String` is
the outcome of `page.waitForEvent('dialog', {timeout})` guarded by
`.catch(() => null)` (a timeout yields `none`); an unguarded promise
is `Except String String`, where the error is the rejection's message
(e.g. Playwright's timeout error).  Each embedded operation also
returns how many times `dialog.accept()` was awaited. -/

/-- Result of a dialog-resolving operation: the JS return/throw
outcome, and the number of `dialog.accept()` calls performed. -/
structure DialogResult (α : Type) where
  result : Except String α
  accepts : Nat
  deriving Repr

/-- `verifyAddToCartSuccess` from `src/helpers/cart.ts` applied to the
dialog promise returned by `addProductToCart` (which is unguarded, so
a timeout rejects).  A rejected promise throws at the `await`, caught
and rewrapped; an arrived dialog is checked case-insensitively for
`product added` / `added`, the dialog is accepted exactly once on both
the mismatch path (before the throw) and the success path, and the
mismatch error carries the actual message and the expected text. -/
def verifyAddToCartSuccess (dialogPromise : Except String String) : DialogResult Unit :=
  match dialogPromise with
  | .error e =>
    { result := .error ("Add to cart success verification failed: " ++ e
        ++ ". Please verify the product was added successfully.")
      accepts := 0 }
  | .ok message =>
    let messageLower := strToLower message
    if !(strContainsSub messageLower "product added") && !(strContainsSub messageLower "added") then
      { result := .error ("Add to cart success verification failed: Unexpected dialog message: "
          ++ message ++ ". Expected: Product added. Please verify the product was added successfully.")
        accepts := 1 }
    else
      { result := .ok (), accepts := 1 }

/-- `handleDialog` from `src/utils/actions.ts`: the guarded wait
returns `null` on timeout (returned as-is); an arrived dialog is
accepted first, and only then compared case-insensitively against
`expectedMessage` when one was supplied, the mismatch throw being
rewrapped by the catch. -/
def handleDialog (dialogEvent : Option String) (expectedMessage : Option String) :
    DialogResult (Option String) :=
  match dialogEvent with
  | none => { result := .ok none, accepts := 0 }
  | some message =>
    match expectedMessage with
    | some expected =>
      if !(strContainsSub (strToLower message) (strToLower expected)) then
        { result := .error ("Dialog handling failed: Unexpected dialog message: "
            ++ message ++ ". Expected: " ++ expected)
          accepts := 1 }
      else { result := .ok (some message), accepts := 1 }
    | none => { result := .ok (some message), accepts := 1 }

/-! ### Scenario steps: `login` and `verifyCartItems` -/

/-- The rewrap `login`'s catch applies:
`Login failed for user "${username}": ${errorMessage}. Please verify
credentials and that the site is accessible.` -/
def loginWrap (username e : String) : String :=
  "Login failed for user \"" ++ username ++ "\": " ++ e
    ++ ". Please verify credentials and that the site is accessible."

/-- `login` from `src/helpers/auth.ts`.  `priorSteps` is the combined
outcome of the click/fill steps 1, 2 and 4 (their failure propagates to
the catch).  The dialog wait is guarded by `.catch(() => null)`, so a
timeout gives `none` and the flow falls through to success.  An arrived
dialog is accepted, and only a message whose lower-casing contains
`wrong password` or `user does not exist` turns into a failure. -/
def login (username : String) (priorSteps : Except String Unit)
    (dialogEvent : Option String) : DialogResult Unit :=
  match priorSteps with
  | .error e => { result := .error (loginWrap username e), accepts := 0 }
  | .ok () =>
    match dialogEvent with
    | none => { result := .ok (), accepts := 0 }
    | some message =>
      if strContainsSub (strToLower message) "wrong password"
          || strContainsSub (strToLower message) "user does not exist" then
        { result := .error (loginWrap username ("Login failed: " ++ message)), accepts := 1 }
      else
        { result := .ok (), accepts := 1 }

/-- The suffix `verifyCartItems`'s catch appends:
`Expected at least ${expectedItemCount} item(s) in cart.` -/
def cartSuffix (expectedItemCount : Nat) : String :=
  "Expected at least " ++ toString expectedItemCount ++ " item(s) in cart."

/-- The message of the error `verifyCartItems` throws when the count
check fails: the failure output of `expect(count).toEqual(expected)`
(external matcher, naming both values), rewrapped by the catch. -/
def cartFailureMessage (count expectedItemCount : Nat) : String :=
  "Cart verification failed: expected " ++ toString count ++ " to equal "
    ++ toString expectedItemCount ++ ". " ++ cartSuffix expectedItemCount

/-- The count check of `verifyCartItems` from `src/helpers/cart.ts`:
`count` is the resolved `getCount` of the cart rows (the preceding
navigation and visibility steps having succeeded); the check is
`expect(count).toEqual(expectedItemCount)` — strict equality — and its
failure is rewrapped with a message that says "at least". -/
def verifyCartItems (count expectedItemCount : Nat) : Except String Unit :=
  if count == expectedItemCount then .ok ()
  else .error (cartFailureMessage count expectedItemCount)

/-! ## Claims -/

/-- C1: the resource lifecycle operations are idempotent.
`initializeBrowser` creates only the missing links of the
browser/context/page chain (existing handles are preserved) and
returns the page handle; a second call in sequence returns the
identical page handle and the identical state, so no new resources are
created.  A second `cleanupBrowser` after the first has nulled all
three handles performs no teardown action. -/
theorem claim_C1 (s : BrowserState) :
    initializeBrowser (initializeBrowser s).1 = initializeBrowser s
    ∧ (initializeBrowser s).1.page = some (initializeBrowser s).2
    ∧ (∀ b, s.browser = some b → (initializeBrowser s).1.browser = some b)
    ∧ (∀ c, s.context = some c → (initializeBrowser s).1.context = some c)
    ∧ (∀ p, s.page = some p → (initializeBrowser s).2 = p)
    ∧ cleanupBrowser noFail (cleanupBrowser noFail s).1
        = ((cleanupBrowser noFail s).1, []) := by
  obtain ⟨b, c, p, n⟩ := s
  cases b <;> cases c <;> cases p <;>
    simp [initializeBrowser, cleanupBrowser, cleanupTry, cleanupTryCtx, cleanupTryEng, noFail]

/-- Witness for C1 at the fully-acquired state with handles 7, 8, 9:
the existing browser handle survives and the existing page handle is
what a further acquire returns. -/
theorem claim_C1_witness :
    (initializeBrowser ⟨some 7, some 8, some 9, 10⟩).1.browser = some 7
    ∧ (initializeBrowser ⟨some 7, some 8, some 9, 10⟩).2 = 9 :=
  ⟨(claim_C1 ⟨some 7, some 8, some 9, 10⟩).2.2.1 7 rfl,
   (claim_C1 ⟨some 7, some 8, some 9, 10⟩).2.2.2.2.1 9 rfl⟩

/-- C2 refuted as stated: in the state with browser 0, context 1,
page 2, when `page.close()` throws, `cleanupBrowser` performs only the
page close — the context teardown is never attempted even though the
context handle is present, and the context remains open. -/
theorem claim_C2_counterexample :
    cleanupBrowser (fun h => h == 2) ⟨some 0, some 1, some 2, 3⟩
      = (⟨some 0, some 1, some 2, 3⟩, [TeardownAction.closePage 2])
    ∧ (⟨some 0, some 1, some 2, 3⟩ : BrowserState).context = some 1 := by
  exact ⟨rfl, rfl⟩

/-- C2 amended: `cleanupBrowser` tears down in the order page, then
context, then browser, and a teardown failure is swallowed — the
caller receives the normal partial result, never the exception — but
the failing step aborts the remaining teardown steps rather than
attempting each of them. -/
theorem claim_C2_amended (fails : Nat → Bool) (s : BrowserState) :
    (∀ r, cleanupTry fails s = .error r → cleanupBrowser fails s = r)
    ∧ ((∀ h, fails h = false) →
        cleanupBrowser fails s
          = ({ s with page := none, context := none, browser := none }, teardownOrder s))
    ∧ (∀ p, s.page = some p → fails p = true →
        cleanupBrowser fails s = (s, [TeardownAction.closePage p])) := by
  refine ⟨?_, ?_, ?_⟩
  · intro r h
    unfold cleanupBrowser
    rw [h]
  · intro hf
    obtain ⟨b, c, p, n⟩ := s
    cases b <;> cases c <;> cases p <;>
      simp [cleanupBrowser, cleanupTry, cleanupTryCtx, cleanupTryEng, teardownOrder, hf]
  · intro p hp hfp
    obtain ⟨b, c, p', n⟩ := s
    simp only at hp
    subst hp
    simp [cleanupBrowser, cleanupTry, hfp]

/-- Witness for C2's amended claim: with handles 0, 1, 2 and no close
call throwing, the full teardown runs in page, context, browser
order. -/
theorem claim_C2_witness :
    cleanupBrowser noFail ⟨some 0, some 1, some 2, 3⟩
      = (⟨none, none, none, 3⟩,
          [TeardownAction.closePage 2, TeardownAction.closeContext 1,
            TeardownAction.closeBrowser 0]) := by
  have h := (claim_C2_amended noFail ⟨some 0, some 1, some 2, 3⟩).2.1 (fun _ => rfl)
  simpa [teardownOrder] using h

theorem findSome?_asArray_none (l : List Json) (hl : ∀ v ∈ l, asArray v = none) :
    l.findSome? asArray = none := by
  induction l with
  | nil => rfl
  | cons a as ih =>
    have ha := hl a (List.mem_cons_self a as)
    simp [List.findSome?, ha]
    intro v hv
    exact hl v (List.mem_cons_of_mem a hv)

theorem findSome?_asArray_first (pre : List Json) (elems : List Json) (post : List Json)
    (hpre : ∀ v ∈ pre, asArray v = none) :
    (pre ++ Json.jarr elems :: post).findSome? asArray = some elems := by
  induction pre with
  | nil => simp [List.findSome?, asArray]
  | cons a as ih =>
    have ha := hpre a (List.mem_cons_self a as)
    simp only [List.cons_append, List.findSome?, ha]
    exact ih (fun v hv => hpre v (List.mem_cons_of_mem a hv))

/-- C3: the extraction policy of `validateProductListResponse`.  An
array body is used directly; a non-null object body contributes its
first array-valued field in `Object.values` order, and an object with
no array-valued field fails naming its keys; any other body fails with
its JS `typeof` (including `null`, whose `typeof` is `"object"`).  On
the body `{status: "ok", items: [{}, {}]}` the `items` array is
extracted and its length 2 is evaluated against the minimum. -/
theorem claim_C3 :
    (∀ elems, extractProducts (.jarr elems) = .ok elems)
    ∧ (∀ pre k elems post,
        (∀ kv ∈ pre, asArray (Prod.snd kv) = none) →
        extractProducts (.jobj (pre ++ (k, Json.jarr elems) :: post)) = .ok elems)
    ∧ (∀ fields, (∀ kv ∈ fields, asArray (Prod.snd kv) = none) →
        extractProducts (.jobj fields)
          = .error (.noArrayProperty (fields.map Prod.fst)))
    ∧ extractProducts .jnull = .error (.notArrayOrObject "object")
    ∧ (∀ b, extractProducts (.jbool b) = .error (.notArrayOrObject "boolean"))
    ∧ (∀ n, extractProducts (.jnum n) = .error (.notArrayOrObject "number"))
    ∧ (∀ st, extractProducts (.jstr st) = .error (.notArrayOrObject "string"))
    ∧ (∀ minProducts,
        validateProductListResponse
          (.jobj [("status", Json.jstr "ok"), ("items", Json.jarr [Json.jobj [], Json.jobj []])])
          minProducts
        = if 2 < minProducts then .error (.countBelowMin 2 minProducts) else .ok ()) := by
  refine ⟨fun elems => rfl, ?_, ?_, rfl, fun b => rfl, fun n => rfl, fun st => rfl, ?_⟩
  · intro pre k elems post hpre
    have h := findSome?_asArray_first (pre.map Prod.snd) elems (post.map Prod.snd)
      (by intro v hv
          rw [List.mem_map] at hv
          obtain ⟨kv, hkv, rfl⟩ := hv
          exact hpre kv hkv)
    simp only [extractProducts, List.map_append, List.map_cons] at h ⊢
    rw [h]
  · intro fields hfields
    have h := findSome?_asArray_none (fields.map Prod.snd)
      (by intro v hv
          rw [List.mem_map] at hv
          obtain ⟨kv, hkv, rfl⟩ := hv
          exact hfields kv hkv)
    simp only [extractProducts]
    rw [h]
  · intro minProducts
    by_cases h2 : 2 < minProducts
    · simp [validateProductListResponse, extractProducts, List.findSome?, asArray,
        Nat.lt_iff_add_one_le, h2]
    · simp [validateProductListResponse, extractProducts, List.findSome?, asArray,
        jsTypeof, Json.isNull, h2]

/-- Witness for C3: the object-wrapped body of the spec's example has
its `items` field extracted as the product collection. -/
theorem claim_C3_witness :
    extractProducts
      (.jobj [("status", Json.jstr "ok"), ("items", Json.jarr [Json.jobj [], Json.jobj []])])
      = .ok [Json.jobj [], Json.jobj []] :=
  claim_C3.2.1 [("status", Json.jstr "ok")] "items" [Json.jobj [], Json.jobj []] []
    (by intro kv hkv
        rw [List.mem_singleton] at hkv
        subst hkv
        rfl)

/-- C4: on a 5-element array of empty objects with `minProducts = 5`,
`validateProductListResponse` succeeds; on a 4-element array it fails
with the count-mismatch error, whose rendered message names both the
found count 4 and the required count 5. -/
theorem claim_C4 :
    validateProductListResponse (.jarr (List.replicate 5 (Json.jobj []))) 5 = .ok ()
    ∧ validateProductListResponse (.jarr (List.replicate 4 (Json.jobj []))) 5
        = .error (.countBelowMin 4 5)
    ∧ strContainsSub (validationMessage (.countBelowMin 4 5) 5) "4" = true
    ∧ strContainsSub (validationMessage (.countBelowMin 4 5) 5) "5" = true := by
  refine ⟨rfl, rfl, by decide, by decide⟩

/-- C5: the interception predicate of `interceptApiRequest` holds
exactly when the response URL contains the endpoint fragment and the
status equals the expected status; `waitForResponse` resolves with the
first response satisfying it (later matches are ignored); and a
response whose URL contains `/entries` but whose status is 404 never
matches the `("/entries", 200)` arm. -/
theorem claim_C5 (endpoint : String) (expectedStatus : Nat) :
    (∀ r, responseMatches endpoint expectedStatus r = true
        ↔ (strContainsSub r.url endpoint = true ∧ r.status = expectedStatus))
    ∧ (∀ pre r post,
        (∀ x ∈ pre, responseMatches endpoint expectedStatus x = false) →
        responseMatches endpoint expectedStatus r = true →
        waitForResponse endpoint expectedStatus (pre ++ r :: post) = some r)
    ∧ (∀ r : NetResponse, strContainsSub r.url "/entries" = true → r.status = 404 →
        responseMatches "/entries" 200 r = false) := by
  refine ⟨?_, ?_, ?_⟩
  · intro r
    simp [responseMatches]
  · intro pre r post hpre hr
    unfold waitForResponse
    induction pre with
    | nil => simp [List.find?_cons, hr]
    | cons a as ih =>
      have ha := hpre a (List.mem_cons_self a as)
      simp only [List.cons_append, List.find?_cons, ha]
      exact ih (fun x hx => hpre x (List.mem_cons_of_mem a hx))
  · intro r hurl hstatus
    simp [responseMatches, hstatus]

/-- Witness for C5: among a 404 response and then a 200 response on
the `/entries` endpoint, the wait resolves with the 200 one. -/
theorem claim_C5_witness :
    waitForResponse "/entries" 200
      [⟨"https://api.demoblaze.com/entries", 404⟩, ⟨"https://api.demoblaze.com/entries", 200⟩]
      = some ⟨"https://api.demoblaze.com/entries", 200⟩ :=
  (claim_C5 "/entries" 200).2.1 [⟨"https://api.demoblaze.com/entries", 404⟩]
    ⟨"https://api.demoblaze.com/entries", 200⟩ []
    (by intro x hx
        rw [List.mem_singleton] at hx
        subst hx
        decide)
    (by decide)

/-- C6: the two call sites apply opposite policies to a dialog
timeout.  In `login` the rejected wait is converted to `null` by
`.catch(() => null)`, so no dialog within the timeout leaves the flow
on its success path; in the add-to-cart flow the dialog promise is
unguarded, so `verifyAddToCartSuccess` awaiting it after a timeout
fails with the rewrapped rejection. -/
theorem claim_C6 (username e : String) :
    (login username (.ok ()) none).result = .ok ()
    ∧ (login username (.ok ()) none).accepts = 0
    ∧ (verifyAddToCartSuccess (.error e)).result
        = .error ("Add to cart success verification failed: " ++ e
            ++ ". Please verify the product was added successfully.") :=
  ⟨rfl, rfl, rfl⟩

/-- C7: on every path where a dialog arrived, `verifyAddToCartSuccess`
and `handleDialog` accept the dialog exactly once; when the message
does not (case-insensitively) contain the expected text, the dialog is
accepted before the mismatch error is raised, and the error carries
both the actual message and the expected text. -/
theorem claim_C7 (message expected : String) :
    (verifyAddToCartSuccess (.ok message)).accepts = 1
    ∧ (handleDialog (some message) (some expected)).accepts = 1
    ∧ (handleDialog (some message) none).accepts = 1
    ∧ (strContainsSub (strToLower message) "product added" = false →
        strContainsSub (strToLower message) "added" = false →
        (verifyAddToCartSuccess (.ok message)).result
          = .error ("Add to cart success verification failed: Unexpected dialog message: "
              ++ message
              ++ ". Expected: Product added. Please verify the product was added successfully."))
    ∧ (strContainsSub (strToLower message) (strToLower expected) = false →
        (handleDialog (some message) (some expected)).result
          = .error ("Dialog handling failed: Unexpected dialog message: "
              ++ message ++ ". Expected: " ++ expected)) := by
  refine ⟨?_, ?_, ?_, ?_, ?_⟩
  · unfold verifyAddToCartSuccess
    dsimp only
    split <;> rfl
  · unfold handleDialog
    dsimp only
    split <;> rfl
  · rfl
  · intro h1 h2
    simp [verifyAddToCartSuccess, h1, h2]
  · intro h
    simp [handleDialog, h]

/-- Witness for C7: the dialog message `Operation complete` lacks the
expected text, and the mismatch error names both it and the expected
`Product added`. -/
theorem claim_C7_witness :
    (verifyAddToCartSuccess (.ok "Operation complete")).result
      = .error ("Add to cart success verification failed: Unexpected dialog message: "
          ++ "Operation complete"
          ++ ". Expected: Product added. Please verify the product was added successfully.") :=
  (claim_C7 "Operation complete" "x").2.2.2.1 (by decide) (by decide)

/-- C8 refuted as stated: the element text `" "` has empty trimmed
value, yet `getText` succeeds and returns the empty string instead of
throwing a missing-content error. -/
theorem claim_C8_counterexample :
    getText (some " ") "Element" = .ok "" ∧ strTrim " " = "" :=
  ⟨rfl, rfl⟩

/-- C8 amended: `getText` fails with the missing-content error exactly
when the resolved text content is `null` or the empty string; any
other text — including whitespace-only text — is returned trimmed
(possibly as the empty string). -/
theorem claim_C8_amended (elementName : String) :
    getText none elementName = .error (getTextErr elementName)
    ∧ getText (some "") elementName = .error (getTextErr elementName)
    ∧ (∀ text, text ≠ "" → getText (some text) elementName = .ok (strTrim text)) := by
  refine ⟨rfl, rfl, ?_⟩
  intro text ht
  simp [getText, ht]

/-- Witness for C8's amended claim: non-empty text is returned
trimmed. -/
theorem claim_C8_witness :
    getText (some "hello ") "Product title" = .ok (strTrim "hello ") :=
  (claim_C8_amended "Product title").2.2 "hello " (by decide)

/-- C9: `verifyCartItems` requires the cart row count to equal the
expectation exactly — it succeeds precisely on equality and fails on
every strictly greater count — even though its failure message says
"at least". -/
theorem claim_C9 (count expectedItemCount : Nat) :
    ((verifyCartItems count expectedItemCount = .ok ()) ↔ count = expectedItemCount)
    ∧ (count > expectedItemCount →
        verifyCartItems count expectedItemCount
          = .error (cartFailureMessage count expectedItemCount))
    ∧ strContainsSub (cartFailureMessage count expectedItemCount) "at least" = true := by
  refine ⟨?_, ?_, ?_⟩
  · by_cases h : count = expectedItemCount
    · simp [verifyCartItems, h]
    · simp [verifyCartItems, h]
  · intro h
    have hne : count ≠ expectedItemCount := Nat.ne_of_gt h
    simp [verifyCartItems, hne]
  · unfold cartFailureMessage
    apply strContainsSub_append_right
    unfold cartSuffix
    apply strContainsSub_append_left
    apply strContainsSub_append_left
    decide

/-- Witness for C9: a cart with 2 rows fails the check against an
expectation of 1, although 2 is at least 1. -/
theorem claim_C9_witness :
    verifyCartItems 2 1 = .error (cartFailureMessage 2 1) :=
  (claim_C9 2 1).2.1 (by decide)

/-- C10: `login` accepts every arrived dialog, and treats it as a
failure exactly when its lower-cased message contains
`wrong password` or `user does not exist`; any other dialog message is
swallowed and login returns success. -/
theorem claim_C10 (username message : String) :
    (login username (.ok ()) (some message)).accepts = 1
    ∧ ((login username (.ok ()) (some message)).result = .ok ()
        ↔ (strContainsSub (strToLower message) "wrong password" = false
            ∧ strContainsSub (strToLower message) "user does not exist" = false)) := by
  constructor
  · unfold login
    dsimp only
    split <;> rfl
  · unfold login
    dsimp only
    cases h1 : strContainsSub (strToLower message) "wrong password" <;>
      cases h2 : strContainsSub (strToLower message) "user does not exist" <;>
        simp [h1, h2]

/-- Witness for C10: a captcha-style dialog message is silently
swallowed and login succeeds. -/
theorem claim_C10_witness :
    (login "test" (.ok ()) (some "Captcha required")).result = .ok () :=
  (claim_C10 "test" "Captcha required").2.mpr (by decide)

/-- Witness for C6 at the credentials of the scenario and Playwright's
timeout rejection text. -/
theorem claim_C6_witness :
    (login "test" (.ok ()) none).result = .ok ()
    ∧ (verifyAddToCartSuccess (.error "Timeout 30000ms exceeded")).result
        = .error ("Add to cart success verification failed: " ++ "Timeout 30000ms exceeded"
            ++ ". Please verify the product was added successfully.") :=
  ⟨(claim_C6 "test" "Timeout 30000ms exceeded").1,
   (claim_C6 "test" "Timeout 30000ms exceeded").2.2⟩
